import Mathlib

/-!
Verification of the PR-review workflow state machine
(`src/lib/constructs/step-functions.ts`, with the earlier revision in
`src/unnamed/part_000`).  The state machine is embedded shallowly: the
JSONPath filter expressions, Choice conditions, Map dispatches and retry
policies become Lean functions and record values; the static state graph
(Next / Choice / Catch / branch edges, state kinds, Map concurrency
parameters) becomes total functions out of an enumerated state type.
-/

/-- Outcome of one Task-Invoker (Lambda) call, as the state machine sees it:
a status code, an optional error kind (read at `$.error.error_type`) and the
response payload. -/
structure TaskResult where
  statusCode : Int
  errorType : Option String
  body : String
deriving DecidableEq, Repr

/-- Output of the `FilterFailedChunks` Pass state: the two JSONPath filters
`$.chunkResults[?(@.statusCode != 200)]` and
`$.chunkResults[?(@.statusCode == 200)]`. -/
structure ClassifiedResults where
  failed_chunks : List TaskResult
  successful_chunks : List TaskResult
deriving DecidableEq, Repr

/-- The `FilterFailedChunks` Pass state (step-functions.ts lines 82-87):
`failed_chunks` keeps exactly the chunk results whose `statusCode` differs
from 200, `successful_chunks` those whose `statusCode` equals 200. -/
def filterFailedChunks (chunkResults : List TaskResult) : ClassifiedResults :=
  { failed_chunks := chunkResults.filter (fun r => r.statusCode != 200),
    successful_chunks := chunkResults.filter (fun r => r.statusCode == 200) }

/-- State flowing into `AggregateResults` after the `CheckFailedChunks`
choice: the classified chunks plus, when the retry Map ran, its results at
`$.retryResults`. -/
structure PipelineOutput where
  successful_chunks : List TaskResult
  failed_chunks : List TaskResult
  retryResults : Option (List TaskResult)
deriving DecidableEq, Repr

/-- The `RetryFailedChunks` Map (step-functions.ts lines 94-98): it runs the
`processChunk` item processor over `$.failed_chunks` with `maxConcurrency: 1`,
so it is a sequential, order-preserving map producing one result per item.
The item processor (an external Lambda) is the parameter `retryFn`. -/
def retryFailedChunksMap (retryFn : TaskResult → TaskResult)
    (failed : List TaskResult) : List TaskResult :=
  failed.map retryFn

/-- The `CheckFailedChunks` Choice (step-functions.ts lines 90-100): when
`$.failed_chunks[0]` is present (the failed list is non-empty) it runs the
`RetryFailedChunks` Map and stores its output at `$.retryResults`; otherwise
the `NoFailedChunks` Pass leaves the state unchanged. -/
def checkFailedChunks (retryFn : TaskResult → TaskResult)
    (c : ClassifiedResults) : PipelineOutput :=
  if c.failed_chunks.isEmpty then
    { successful_chunks := c.successful_chunks,
      failed_chunks := c.failed_chunks,
      retryResults := none }
  else
    { successful_chunks := c.successful_chunks,
      failed_chunks := c.failed_chunks,
      retryResults := some (retryFailedChunksMap retryFn c.failed_chunks) }

/-- The chunk pipeline from classification to the state handed to
`AggregateResults`: `FilterFailedChunks` then `CheckFailedChunks`. -/
def chunkPipeline (retryFn : TaskResult → TaskResult)
    (chunkResults : List TaskResult) : PipelineOutput :=
  checkFailedChunks retryFn (filterFailedChunks chunkResults)

/-- The retry-pass outcomes visible to aggregation: the contents of
`$.retryResults` when the retry Map ran, and the empty sequence when the
`NoFailedChunks` Pass was taken. -/
def retriedOf (o : PipelineOutput) : List TaskResult :=
  o.retryResults.getD []

/-- Modelled from the spec: the Result Merger (spec §4.4) lives inside the
`aggregateResults` Lambda, whose source is not under `src/`; the state
machine hands that Lambda the whole pipeline state.  Per the spec it
"concatenates, in a fixed order (succeeded-from-first-pass, then
results-of-retry-pass), into one ordered MergedResult sequence". -/
def mergedResult (o : PipelineOutput) : List TaskResult :=
  o.successful_chunks ++ retriedOf o

/-- Terminal verdict of an execution. -/
inductive Verdict where
  | success
  | failed
deriving DecidableEq, Repr

/-- The `CheckFinalStatus` Choice (step-functions.ts lines 157-167): the
conjunction of `isPresent($.postResults[0].statusCode)`,
`isPresent($.postResults[1].statusCode)`,
`numberEquals($.postResults[0].statusCode, 200)` and
`numberEquals($.postResults[1].statusCode, 200)` routes to `Success`;
anything else routes to `Failed`.  Each branch status is `none` when the
`statusCode` field is absent from that branch's output. -/
def checkFinalStatus (post0 post1 : Option Int) : Verdict :=
  if post0.isSome ∧ post1.isSome ∧ post0 = some 200 ∧ post1 = some 200 then
    Verdict.success
  else
    Verdict.failed

/-- Where the `ChunkSizeCheck` Choice routes. -/
inductive Route where
  | chunkPipelinePath
  | singleChunkPath
deriving DecidableEq, Repr

/-- The `ChunkSizeCheck` Choice (step-functions.ts lines 204-209):
`numberGreaterThan($.body.total_files, 5)` routes to the chunk pipeline,
otherwise to `ProcessSingleChunk`. -/
def chunkSizeCheckRoute (total_files : Int) : Route :=
  if total_files > 5 then Route.chunkPipelinePath else Route.singleChunkPath

/-- Whether `needle` occurs as a contiguous subsequence of a character
list (structural recursion, so it evaluates inside the kernel). -/
def containsSeq (needle : List Char) : List Char → Bool
  | [] => needle.isEmpty
  | c :: rest => needle.isPrefixOf (c :: rest) || containsSeq needle rest

/-- Whether a payload string contains the given marker as a substring. -/
def containsMarker (marker body : String) : Bool :=
  containsSeq marker.data body.data

/-- The classification rule exactly as the specification words it (§4.3),
for comparison with `filterFailedChunks`: failed iff the status code is 500
or 429, or the payload contains an error message matching a rate-limit
marker. -/
def specClassifiesFailed (r : TaskResult) : Bool :=
  r.statusCode == 500 || r.statusCode == 429 ||
    containsMarker "RateLimitError" r.body ||
    containsMarker "rate limit" r.body

/-- A status-404 result with an empty payload: classified failed by the
code's filter, but not failed under the specification's §4.3 rule. -/
def r404 : TaskResult := { statusCode := 404, errorType := none, body := "" }

/-- A status-200 result used to instantiate universally quantified
theorems on concrete inputs. -/
def r200 : TaskResult := { statusCode := 200, errorType := none, body := "ok" }

/-- A status-429 rate-limited result used for concrete instantiations. -/
def r429 : TaskResult :=
  { statusCode := 429, errorType := some "RateLimitError", body := "rate limit" }

/-- The named states of the `PR-REVIEWER` state machine
(step-functions.ts), one constructor per construct created in the file. -/
inductive StateId where
  | initialProcessing
  | splitPr
  | chunkSizeCheck
  | processSingleChunk
  | processChunks
  | processChunk
  | filterFailedChunks
  | checkFailedChunks
  | retryFailedChunks
  | noFailedChunks
  | aggregateResults
  | postResults
  | postPrComment
  | checkPRCommentStatus
  | prCommentSuccess
  | sendSlackNotification
  | checkSlackNotificationStatus
  | slackNotificationSuccess
  | handleError
  | checkFinalStatusState
  | success
  | failed
deriving DecidableEq, Repr

/-- Every state of the machine. -/
def allStates : List StateId :=
  [StateId.initialProcessing, StateId.splitPr, StateId.chunkSizeCheck,
   StateId.processSingleChunk, StateId.processChunks, StateId.processChunk,
   StateId.filterFailedChunks, StateId.checkFailedChunks,
   StateId.retryFailedChunks, StateId.noFailedChunks,
   StateId.aggregateResults, StateId.postResults, StateId.postPrComment,
   StateId.checkPRCommentStatus, StateId.prCommentSuccess,
   StateId.sendSlackNotification, StateId.checkSlackNotificationStatus,
   StateId.slackNotificationSuccess, StateId.handleError,
   StateId.checkFinalStatusState, StateId.success, StateId.failed]

/-- The Amazon-States-Language state kinds; `waitState` is the language's
Wait construct, carrying its delay in seconds. -/
inductive StateKind where
  | lambdaTask
  | mapState
  | choiceState
  | passState
  | parallelState
  | succeedState
  | failState
  | waitState (seconds : Nat)
deriving DecidableEq, Repr

/-- Kind of each state, read off the constructors in step-functions.ts. -/
def stateKind : StateId → StateKind
  | StateId.initialProcessing => StateKind.lambdaTask
  | StateId.splitPr => StateKind.lambdaTask
  | StateId.chunkSizeCheck => StateKind.choiceState
  | StateId.processSingleChunk => StateKind.lambdaTask
  | StateId.processChunks => StateKind.mapState
  | StateId.processChunk => StateKind.lambdaTask
  | StateId.filterFailedChunks => StateKind.passState
  | StateId.checkFailedChunks => StateKind.choiceState
  | StateId.retryFailedChunks => StateKind.mapState
  | StateId.noFailedChunks => StateKind.passState
  | StateId.aggregateResults => StateKind.lambdaTask
  | StateId.postResults => StateKind.parallelState
  | StateId.postPrComment => StateKind.lambdaTask
  | StateId.checkPRCommentStatus => StateKind.choiceState
  | StateId.prCommentSuccess => StateKind.passState
  | StateId.sendSlackNotification => StateKind.lambdaTask
  | StateId.checkSlackNotificationStatus => StateKind.choiceState
  | StateId.slackNotificationSuccess => StateKind.passState
  | StateId.handleError => StateKind.lambdaTask
  | StateId.checkFinalStatusState => StateKind.choiceState
  | StateId.success => StateKind.succeedState
  | StateId.failed => StateKind.failState

/-- Whether a state kind is the Wait construct. -/
def isWaitKind : StateKind → Bool
  | StateKind.waitState _ => true
  | _ => false

/-- Successor on normal completion, from the `.next(...)` chaining in
step-functions.ts (lines 203-222): the main chain
`initialProcessing → splitPr → chunkSizeCheck`, the chunk-pipeline chain
`processChunks → filterFailedChunks → checkFailedChunks`, the
`.afterwards()` join sending every Choice-branch end to
`aggregateResults → postResults → checkFinalStatus`, and the
branch-internal chains of the `PostResults` Parallel.  States with no
`.next(...)` call (among them `handleError`) end their graph. -/
def nextOnComplete : StateId → Option StateId
  | StateId.initialProcessing => some StateId.splitPr
  | StateId.splitPr => some StateId.chunkSizeCheck
  | StateId.processSingleChunk => some StateId.aggregateResults
  | StateId.processChunks => some StateId.filterFailedChunks
  | StateId.filterFailedChunks => some StateId.checkFailedChunks
  | StateId.retryFailedChunks => some StateId.aggregateResults
  | StateId.noFailedChunks => some StateId.aggregateResults
  | StateId.aggregateResults => some StateId.postResults
  | StateId.postResults => some StateId.checkFinalStatusState
  | StateId.postPrComment => some StateId.checkPRCommentStatus
  | StateId.sendSlackNotification => some StateId.checkSlackNotificationStatus
  | _ => none

/-- Targets of each Choice state, `when`-branch first, `otherwise` last. -/
def choiceTargets : StateId → List StateId
  | StateId.chunkSizeCheck =>
      [StateId.processChunks, StateId.processSingleChunk]
  | StateId.checkFailedChunks =>
      [StateId.retryFailedChunks, StateId.noFailedChunks]
  | StateId.checkPRCommentStatus =>
      [StateId.prCommentSuccess, StateId.handleError]
  | StateId.checkSlackNotificationStatus =>
      [StateId.slackNotificationSuccess, StateId.handleError]
  | StateId.checkFinalStatusState =>
      [StateId.success, StateId.failed]
  | _ => []

/-- Catch target of each state, from the `addCatch` calls
(step-functions.ts lines 187-201). -/
def catchTarget : StateId → Option StateId
  | StateId.initialProcessing => some StateId.handleError
  | StateId.splitPr => some StateId.handleError
  | StateId.processChunks => some StateId.handleError
  | StateId.aggregateResults => some StateId.handleError
  | StateId.postResults => some StateId.handleError
  | _ => none

/-- The `resultPath` of each `addCatch` call: every catch stores the failing
state's error payload at `$.error` of the carried-forward input. -/
def catchResultPath : StateId → Option String
  | StateId.initialProcessing => some "$.error"
  | StateId.splitPr => some "$.error"
  | StateId.processChunks => some "$.error"
  | StateId.aggregateResults => some "$.error"
  | StateId.postResults => some "$.error"
  | _ => none

/-- First states of the branches of the `PostResults` Parallel
(step-functions.ts lines 140-154). -/
def branchStarts : StateId → List StateId
  | StateId.postResults =>
      [StateId.postPrComment, StateId.sendSlackNotification]
  | _ => []

/-- The item processor of each Map state: both `ProcessChunks` and
`RetryFailedChunks` run the same `processChunk` task. -/
def itemProcessorState : StateId → Option StateId
  | StateId.processChunks => some StateId.processChunk
  | StateId.retryFailedChunks => some StateId.processChunk
  | _ => none

/-- `maxConcurrency` of each Map state: `ProcessChunks` is created with
`maxConcurrency: 1` (step-functions.ts line 69) and `RetryFailedChunks`
with `maxConcurrency: 1` (line 95). -/
def mapMaxConcurrency : StateId → Option Nat
  | StateId.processChunks => some 1
  | StateId.retryFailedChunks => some 1
  | _ => none

/-- `maxConcurrency` of the `ProcessChunks` Map in the earlier revision of
the construct, `src/unnamed/part_000` line 47. -/
def mapMaxConcurrencyRev0 : Nat := 1

/-- The Lambda functions wired into the state machine
(`props.functions.*`). -/
inductive LambdaFn where
  | initialProcessingFn
  | splitPrFn
  | processChunkFn
  | aggregateResultsFn
  | postPrCommentFn
  | sendSlackNotificationFn
  | handleErrorFn
deriving DecidableEq, Repr

/-- The Lambda behind each task state.  Both `ProcessSingleChunk` (line 38)
and `ProcessChunk` (line 45) invoke `props.functions.processChunk`. -/
def taskLambda : StateId → Option LambdaFn
  | StateId.initialProcessing => some LambdaFn.initialProcessingFn
  | StateId.splitPr => some LambdaFn.splitPrFn
  | StateId.processSingleChunk => some LambdaFn.processChunkFn
  | StateId.processChunk => some LambdaFn.processChunkFn
  | StateId.aggregateResults => some LambdaFn.aggregateResultsFn
  | StateId.postPrComment => some LambdaFn.postPrCommentFn
  | StateId.sendSlackNotification => some LambdaFn.sendSlackNotificationFn
  | StateId.handleError => some LambdaFn.handleErrorFn
  | _ => none

/-- All edges out of a state: completion successor, Choice targets, catch
target, Parallel branch heads and Map item processor. -/
def succs (s : StateId) : List StateId :=
  (nextOnComplete s).toList ++ choiceTargets s ++ (catchTarget s).toList ++
    branchStarts s ++ (itemProcessorState s).toList

/-- One step of the reachability closure. -/
def reachStep (l : List StateId) : List StateId :=
  (l ++ l.flatMap succs).dedup

/-- Iterated reachability closure. -/
def reachN : Nat → List StateId → List StateId
  | 0, l => l
  | n + 1, l => reachN n (reachStep l)

/-- States strictly reachable from `s` (closure of the successors of `s`;
30 iterations exceed the number of states, so this is the full closure). -/
def reachableFrom (s : StateId) : List StateId :=
  reachN 30 (succs s)

/-- A retry policy as written in the construct: the matched error names,
the base interval in seconds, the number of additional attempts, the
backoff multiplier, and (for the `processChunk` policy) the error-type
condition written in its `conditions` field. -/
structure RetryPolicy where
  errors : List String
  intervalSeconds : Nat
  maxAttempts : Nat
  backoffRate : ℚ
  errorTypeCondition : Option String := none
deriving DecidableEq, Repr

/-- The retry policy attached to `ProcessChunk` (step-functions.ts lines
51-63): `States.TaskFailed`, 5-second interval, 3 attempts, backoff 2,
restricted by its `conditions` field to `RateLimitError` read from
`$.error.error_type`. -/
def rateLimitRetry : RetryPolicy :=
  { errors := ["States.TaskFailed"], intervalSeconds := 5, maxAttempts := 3,
    backoffRate := 2, errorTypeCondition := some "RateLimitError" }

/-- The uniform default retry policy (step-functions.ts lines 173-178 and
src/unnamed/part_000 lines 128-133): `States.TaskFailed`, 3-second
interval, 2 attempts, backoff 1.5. -/
def defaultRetry : RetryPolicy :=
  { errors := ["States.TaskFailed"], intervalSeconds := 3, maxAttempts := 2,
    backoffRate := (3 : ℚ) / 2, errorTypeCondition := none }

/-- The retry policies attached to each state: `defaultRetry` is added to
the seven tasks listed in the `forEach` at lines 181-184, and
`rateLimitRetry` to `ProcessChunk`. -/
def retryPoliciesOf : StateId → List RetryPolicy
  | StateId.initialProcessing => [defaultRetry]
  | StateId.splitPr => [defaultRetry]
  | StateId.processSingleChunk => [defaultRetry]
  | StateId.aggregateResults => [defaultRetry]
  | StateId.postPrComment => [defaultRetry]
  | StateId.sendSlackNotification => [defaultRetry]
  | StateId.handleError => [defaultRetry]
  | StateId.processChunk => [rateLimitRetry]
  | _ => []

/-- An error raised by a task, as matched by a retry policy: the
States-language error name and the error type at `$.error.error_type`. -/
structure TaskError where
  name : String
  error_type : Option String
deriving DecidableEq, Repr

/-- Whether a retry policy applies to an error, per the fields written in
the source: the error name must be in the policy's `errors` list and, when
the policy carries an `errorType` condition, the error's type must match
it. -/
def retryApplies (p : RetryPolicy) (e : TaskError) : Bool :=
  p.errors.contains e.name &&
    (match p.errorTypeCondition with
     | none => true
     | some t => e.error_type == some t)

/-- Modelled from the spec: the behavior of the `processChunk` collaborator
when its local retry budget is exhausted — its Lambda source is not under
`src/` — per §4.2 "its TaskResult carries a designated rate-limit error
kind rather than failing the whole scheduler call". -/
def rateLimitExhaustedResult : TaskResult :=
  { statusCode := 429, errorType := some "RateLimitError",
    body := "rate limit retries exhausted" }

/- ------------------------------------------------------------------ -/
/- Theorems                                                           -/
/- ------------------------------------------------------------------ -/

theorem length_filter_add_length_filter_not {α : Type} (p : α → Bool)
    (l : List α) :
    (l.filter p).length + (l.filter (fun a => !(p a))).length = l.length := by
  induction l with
  | nil => rfl
  | cons a t ih =>
    cases h : p a <;> simp [List.filter, h] <;> omega

theorem filter_ne_eq_filter_not (l : List TaskResult) :
    l.filter (fun r => r.statusCode != 200)
      = l.filter (fun r => !(r.statusCode == 200)) := rfl

/-- C1: the final status check yields `Success` exactly when both
publication branch results are present with status code 200, and `Failed`
whenever either is missing or differs from 200, regardless of the other. -/
theorem checkFinalStatus_success_iff (post0 post1 : Option Int) :
    (checkFinalStatus post0 post1 = Verdict.success ↔
      post0 = some 200 ∧ post1 = some 200) ∧
    (checkFinalStatus post0 post1 = Verdict.failed ↔
      ¬ (post0 = some 200 ∧ post1 = some 200)) := by
  unfold checkFinalStatus
  rcases post0 with _ | a <;> rcases post1 with _ | b <;> simp [Option.isSome]

/-- Witness for C1: evaluated at a missing first branch status and a
successful second branch, the verdict is `Failed`. -/
theorem checkFinalStatus_success_iff_witness :
    checkFinalStatus none (some 200) = Verdict.failed :=
  (checkFinalStatus_success_iff none (some 200)).2.mpr (by decide)

theorem filterFailedChunks_length_split (l : List TaskResult) :
    (filterFailedChunks l).successful_chunks.length
      + (filterFailedChunks l).failed_chunks.length = l.length := by
  unfold filterFailedChunks
  have h := length_filter_add_length_filter_not
    (fun r : TaskResult => r.statusCode == 200) l
  simpa [filter_ne_eq_filter_not] using h

theorem chunkPipeline_successful (chunkResults : List TaskResult)
    (retryFn : TaskResult → TaskResult) :
    (chunkPipeline retryFn chunkResults).successful_chunks
      = (filterFailedChunks chunkResults).successful_chunks := by
  unfold chunkPipeline checkFailedChunks
  split <;> rfl

theorem chunkPipeline_retried (chunkResults : List TaskResult)
    (retryFn : TaskResult → TaskResult) :
    retriedOf (chunkPipeline retryFn chunkResults)
      = (filterFailedChunks chunkResults).failed_chunks.map retryFn := by
  unfold chunkPipeline checkFailedChunks retriedOf retryFailedChunksMap
  split
  · rename_i h
    rw [List.isEmpty_iff.mp h]
    rfl
  · rfl

/-- C2: for every first-pass chunk result set, the merged view handed to
aggregation is first-pass successes followed by retry-pass outcomes, with
`|MergedResult| = |succeeded-first-pass| + |retried|` and
`|retried| = |failed-first-pass|`; the length equality holds even when the
failed set is empty (retry skipped, merged result equals the successes
alone), and `|MergedResult| = |chunkResults|`, so no item is dropped. -/
theorem chunkPipeline_merge_invariant (chunkResults : List TaskResult)
    (retryFn : TaskResult → TaskResult) :
    mergedResult (chunkPipeline retryFn chunkResults)
        = (chunkPipeline retryFn chunkResults).successful_chunks
            ++ retriedOf (chunkPipeline retryFn chunkResults) ∧
    (retriedOf (chunkPipeline retryFn chunkResults)).length
        = (filterFailedChunks chunkResults).failed_chunks.length ∧
    (mergedResult (chunkPipeline retryFn chunkResults)).length
        = (filterFailedChunks chunkResults).successful_chunks.length
            + (retriedOf (chunkPipeline retryFn chunkResults)).length ∧
    (mergedResult (chunkPipeline retryFn chunkResults)).length
        = chunkResults.length ∧
    ((filterFailedChunks chunkResults).failed_chunks = [] →
      mergedResult (chunkPipeline retryFn chunkResults)
        = (filterFailedChunks chunkResults).successful_chunks) := by
  have hsucc := chunkPipeline_successful chunkResults retryFn
  have hret := chunkPipeline_retried chunkResults retryFn
  have hsplit := filterFailedChunks_length_split chunkResults
  refine ⟨rfl, ?_, ?_, ?_, ?_⟩
  · rw [hret, List.length_map]
  · simp [mergedResult, hsucc]
  · simp only [mergedResult, List.length_append, hsucc, hret,
      List.length_map]
    omega
  · intro h
    simp [mergedResult, hsucc, hret, h]

/-- Witness for C2 at a single successful chunk: the failed set is empty
and the merged result is the successes alone. -/
theorem chunkPipeline_merge_invariant_witness :
    mergedResult (chunkPipeline (fun r => r) [r200])
      = (filterFailedChunks [r200]).successful_chunks :=
  (chunkPipeline_merge_invariant [r200] (fun r => r)).2.2.2.2 (by decide)

/-- C3 counterexample: the status-404 result with an empty payload is
placed in `failed_chunks` by the code's filter, although the
specification's §4.3 rule (status 500 or 429, or a rate-limit marker in
the payload) does not classify it as failed. -/
theorem classifier_differs_from_spec_rule_at_404 :
    r404 ∈ (filterFailedChunks [r404]).failed_chunks ∧
    specClassifiesFailed r404 = false := by decide

/-- C3 amended: the failure classifier marks a chunk result failed exactly
when its status code differs from 200, and succeeded exactly when its
status code equals 200; the payload is not consulted. -/
theorem filterFailedChunks_failed_iff (chunkResults : List TaskResult)
    (r : TaskResult) :
    (r ∈ (filterFailedChunks chunkResults).failed_chunks ↔
      r ∈ chunkResults ∧ r.statusCode ≠ 200) ∧
    (r ∈ (filterFailedChunks chunkResults).successful_chunks ↔
      r ∈ chunkResults ∧ r.statusCode = 200) := by
  unfold filterFailedChunks
  constructor <;> simp [List.mem_filter]

/-- Witness for C3's amended theorem: the 404 result is in the failed
set of a concrete two-element input. -/
theorem filterFailedChunks_failed_iff_witness :
    r404 ∈ (filterFailedChunks [r404, r200]).failed_chunks :=
  ((filterFailedChunks_failed_iff [r404, r200] r404).1).mpr (by decide)

/-- C4: classification is a strict, order-preserving partition: no result
is in both output sequences, every input result is in one of them, the
lengths add up, and each output sequence is a sublist (hence preserves the
input's relative order). -/
theorem filterFailedChunks_partition (chunkResults : List TaskResult) :
    (∀ r, r ∈ (filterFailedChunks chunkResults).successful_chunks →
        r ∉ (filterFailedChunks chunkResults).failed_chunks) ∧
    (∀ r, r ∈ chunkResults →
        (r ∈ (filterFailedChunks chunkResults).successful_chunks ∨
         r ∈ (filterFailedChunks chunkResults).failed_chunks)) ∧
    (filterFailedChunks chunkResults).successful_chunks.length
        + (filterFailedChunks chunkResults).failed_chunks.length
        = chunkResults.length ∧
    (filterFailedChunks chunkResults).successful_chunks.Sublist chunkResults ∧
    (filterFailedChunks chunkResults).failed_chunks.Sublist chunkResults := by
  refine ⟨?_, ?_, filterFailedChunks_length_split chunkResults,
    List.filter_sublist chunkResults, List.filter_sublist chunkResults⟩
  · intro r hs hf
    have h1 := (List.mem_filter.mp hs).2
    have h2 := (List.mem_filter.mp hf).2
    simp only [beq_iff_eq] at h1
    simp only [bne_iff_ne] at h2
    exact h2 h1
  · intro r hr
    by_cases h : r.statusCode = 200
    · exact Or.inl (List.mem_filter.mpr ⟨hr, by simp [h]⟩)
    · exact Or.inr (List.mem_filter.mpr ⟨hr, by simp [h]⟩)

/-- Witness for C4 at a concrete two-element input: the 200 result lands
in one of the two output sequences. -/
theorem filterFailedChunks_partition_witness :
    r200 ∈ (filterFailedChunks [r200, r404]).successful_chunks ∨
    r200 ∈ (filterFailedChunks [r200, r404]).failed_chunks :=
  (filterFailedChunks_partition [r200, r404]).2.1 r200 (by decide)

/-- C5 counterexample: the true branch of the `CheckFailedChunks` Choice is
the `RetryFailedChunks` Map itself, and no Wait state of any duration
exists anywhere in the machine, so no 2-time-unit delay precedes the retry
dispatch. -/
theorem no_wait_before_retry :
    choiceTargets StateId.checkFailedChunks
        = [StateId.retryFailedChunks, StateId.noFailedChunks] ∧
    stateKind StateId.retryFailedChunks = StateKind.mapState ∧
    allStates.filter (fun s => isWaitKind (stateKind s)) = [] := by decide

/-- C5 amended: whenever the first-pass failed set is non-empty, the retry
coordinator immediately (with no wait state) re-dispatches exactly the
failed items, in order, at concurrency bound 1; the retry pass runs exactly
once (no path returns from it to itself or to the classifier, and it is
unreachable from aggregation onward), and when the failed set is empty it
is a no-op pass-through. -/
theorem retryCoordinator_once (c : ClassifiedResults)
    (retryFn : TaskResult → TaskResult) :
    (c.failed_chunks ≠ [] →
      (checkFailedChunks retryFn c).retryResults
        = some (c.failed_chunks.map retryFn)) ∧
    (c.failed_chunks = [] →
      checkFailedChunks retryFn c =
        { successful_chunks := c.successful_chunks,
          failed_chunks := c.failed_chunks, retryResults := none }) ∧
    mapMaxConcurrency StateId.retryFailedChunks = some 1 ∧
    StateId.retryFailedChunks ∉ reachableFrom StateId.retryFailedChunks ∧
    StateId.filterFailedChunks ∉ reachableFrom StateId.retryFailedChunks ∧
    StateId.retryFailedChunks ∉ reachableFrom StateId.aggregateResults := by
  refine ⟨?_, ?_, by decide, by decide, by decide, by decide⟩
  · intro h
    unfold checkFailedChunks retryFailedChunksMap
    rw [if_neg]
    simpa [List.isEmpty_iff] using h
  · intro h
    unfold checkFailedChunks
    rw [if_pos]
    simpa [List.isEmpty_iff] using h

/-- Witness for C5's amended theorem: a single 429 result is re-dispatched
through the retry map. -/
theorem retryCoordinator_once_witness :
    (checkFailedChunks (fun r => r) (filterFailedChunks [r429])).retryResults
      = some ((filterFailedChunks [r429]).failed_chunks.map (fun r => r)) :=
  (retryCoordinator_once (filterFailedChunks [r429]) (fun r => r)).1
    (by decide)

/-- C6 counterexample: `HandleError` has no successor at all — in
particular it does not transition to the `Failed` state — and it is the
`otherwise` target of both publication branch checks, so a single
execution whose two publication branches both fail reaches it twice. -/
theorem handleError_no_transition_to_failed :
    nextOnComplete StateId.handleError = none ∧
    nextOnComplete StateId.handleError ≠ some StateId.failed ∧
    StateId.handleError ∈ choiceTargets StateId.checkPRCommentStatus ∧
    StateId.handleError ∈ choiceTargets StateId.checkSlackNotificationStatus := by
  decide

/-- C6 amended: any unrecovered fault raised in initial processing, split,
the chunk map, aggregation or publication is caught and routed to the
`HandleError` task, carrying the failing state's error payload at
`$.error`; `HandleError` invokes the handle-error collaborator and is
terminal — it has no successor, so the execution ends there without
transitioning to the `Failed` state and never re-enters the main
pipeline (it is also the shared failure target of both publication branch
status checks, so it is not confined to a single entry per execution). -/
theorem errorHandling_catch_structure :
    catchTarget StateId.initialProcessing = some StateId.handleError ∧
    catchTarget StateId.splitPr = some StateId.handleError ∧
    catchTarget StateId.processChunks = some StateId.handleError ∧
    catchTarget StateId.aggregateResults = some StateId.handleError ∧
    catchTarget StateId.postResults = some StateId.handleError ∧
    catchResultPath StateId.initialProcessing = some "$.error" ∧
    catchResultPath StateId.splitPr = some "$.error" ∧
    catchResultPath StateId.processChunks = some "$.error" ∧
    catchResultPath StateId.aggregateResults = some "$.error" ∧
    catchResultPath StateId.postResults = some "$.error" ∧
    taskLambda StateId.handleError = some LambdaFn.handleErrorFn ∧
    nextOnComplete StateId.handleError = none ∧
    succs StateId.handleError = [] ∧
    reachableFrom StateId.handleError = [] := by decide

/-- C7 counterexample: the first-pass `ProcessChunks` Map is configured
with `maxConcurrency: 1`, not 3, in both revisions of the construct. -/
theorem processChunks_concurrency_not_three :
    mapMaxConcurrency StateId.processChunks = some 1 ∧
    mapMaxConcurrency StateId.processChunks ≠ some 3 ∧
    mapMaxConcurrencyRev0 ≠ 3 := by decide

/-- C7 amended: both the first-pass chunk dispatch and the retry pass are
configured with concurrency bound 1 (also in the earlier revision of the
construct). -/
theorem chunk_dispatch_concurrency_bounds :
    mapMaxConcurrency StateId.processChunks = some 1 ∧
    mapMaxConcurrency StateId.retryFailedChunks = some 1 ∧
    mapMaxConcurrencyRev0 = 1 := by decide

/-- C8: the size check is a pure decision on `$.body.total_files`: above 5
it routes to the chunk pipeline, otherwise to the single-chunk path, whose
task invokes the same `processChunk` Lambda as the chunk Map's item
processor. -/
theorem chunkSizeCheck_routing (total_files : Int) :
    (chunkSizeCheckRoute total_files = Route.chunkPipelinePath ↔
      5 < total_files) ∧
    (chunkSizeCheckRoute total_files = Route.singleChunkPath ↔
      total_files ≤ 5) ∧
    choiceTargets StateId.chunkSizeCheck
        = [StateId.processChunks, StateId.processSingleChunk] ∧
    taskLambda StateId.processSingleChunk = some LambdaFn.processChunkFn ∧
    itemProcessorState StateId.processChunks = some StateId.processChunk ∧
    taskLambda StateId.processChunk = some LambdaFn.processChunkFn := by
  refine ⟨?_, ?_, by decide, by decide, by decide, by decide⟩
  · unfold chunkSizeCheckRoute
    split <;> rename_i h <;> simp <;> omega
  · unfold chunkSizeCheckRoute
    split <;> rename_i h <;> simp <;> omega

/-- Witness for C8: three changed files route to the single-chunk path. -/
theorem chunkSizeCheck_routing_witness :
    chunkSizeCheckRoute 3 = Route.singleChunkPath :=
  ((chunkSizeCheck_routing 3).2.1).mpr (by decide)

/-- C9: the `ProcessChunk` retry policy, as written, applies exactly to a
task failure whose `$.error.error_type` is `RateLimitError`, with 3
attempts, 5-second base interval and backoff multiplier 2; it is the
policy of the per-item task, not of the workflow-level retry map; and the
exhausted-retry outcome (modelled from the spec, the Lambda source being
absent) is a TaskResult carrying the rate-limit error kind. -/
theorem processChunk_local_retry_policy (e : TaskError) :
    (retryApplies rateLimitRetry e = true ↔
      e.name = "States.TaskFailed" ∧
        e.error_type = some "RateLimitError") ∧
    rateLimitRetry.maxAttempts = 3 ∧
    rateLimitRetry.intervalSeconds = 5 ∧
    rateLimitRetry.backoffRate = 2 ∧
    retryPoliciesOf StateId.processChunk = [rateLimitRetry] ∧
    rateLimitRetry ∉ retryPoliciesOf StateId.retryFailedChunks ∧
    rateLimitExhaustedResult.errorType = some "RateLimitError" := by
  refine ⟨?_, rfl, rfl, rfl, rfl, by simp [retryPoliciesOf], rfl⟩
  unfold retryApplies rateLimitRetry
  simp

/-- Witness for C9: the policy applies to a rate-limit task failure. -/
theorem processChunk_local_retry_policy_witness :
    retryApplies rateLimitRetry
      { name := "States.TaskFailed", error_type := some "RateLimitError" }
      = true :=
  ((processChunk_local_retry_policy
      { name := "States.TaskFailed", error_type := some "RateLimitError" }).1).mpr
    ⟨rfl, rfl⟩

/-- C10: the uniform default retry policy — 2 additional attempts, 3-second
base interval, backoff 1.5, on task failure — is attached to `HandleError`
itself (so the error-reporting collaborator can run more than once during
one escalation) and to initial processing, split, the single-chunk task,
aggregation and both publication tasks. -/
theorem defaultRetry_uniform :
    retryPoliciesOf StateId.handleError = [defaultRetry] ∧
    defaultRetry.errors = ["States.TaskFailed"] ∧
    defaultRetry.intervalSeconds = 3 ∧
    defaultRetry.maxAttempts = 2 ∧
    defaultRetry.backoffRate = (3 : ℚ) / 2 ∧
    0 < defaultRetry.maxAttempts ∧
    retryPoliciesOf StateId.initialProcessing = [defaultRetry] ∧
    retryPoliciesOf StateId.splitPr = [defaultRetry] ∧
    retryPoliciesOf StateId.processSingleChunk = [defaultRetry] ∧
    retryPoliciesOf StateId.aggregateResults = [defaultRetry] ∧
    retryPoliciesOf StateId.postPrComment = [defaultRetry] ∧
    retryPoliciesOf StateId.sendSlackNotification = [defaultRetry] :=
  ⟨rfl, rfl, rfl, rfl, rfl, by decide, rfl, rfl, rfl, rfl, rfl, rfl⟩
